import Mathlib

/-!
A shallow embedding of the dataset audit procedure implemented by
`projects/gemma-lab/data_doctor.py` (function `audit_mode`), together with
proofs of the specification claims about it.

Numbers: Python accumulates `file_tokens`/`total_tokens` in machine floats and
applies `int(...)` once when printing the report; the embedding models these
quantities as exact rationals (`ℚ`), with the truncation `int(...)` modelled
explicitly by `pyInt`.  External collaborators (`json.loads`, the tokenizer,
the filesystem) are modelled at the interface granularity the audit uses them:
a file is represented by the outcome of reading and parsing it, a tokenizer by
the length function `len(tokenizer.encode(text))`.
-/

namespace DataDoctor

/-- JSON values as produced by `json.loads`.  Object fields keep insertion
order, as Python dicts do; numeric literals are restricted to integers (no
float literal is involved in any audited claim). -/
inductive Json where
  | obj : List (String × Json) → Json
  | arr : List Json → Json
  | str : String → Json
  | num : Int → Json
  | bool : Bool → Json
  | null : Json

/-- Python equality `needle == e` between a string and a JSON value, as used by
list membership: only equal to the identical string. -/
def pyStrEq (needle : String) : Json → Bool
  | .str t => needle == t
  | _ => false

/-- `listPre a b`: `a` occurs at the front of `b` (character lists). -/
def listPre : List Char → List Char → Bool
  | [], _ => true
  | _ :: _, [] => false
  | a :: as, b :: bs => a == b && listPre as bs

/-- `listSub a b`: `a` occurs contiguously somewhere inside `b`. -/
def listSub (needle : List Char) : List Char → Bool
  | [] => needle.isEmpty
  | b :: t => listPre needle (b :: t) || listSub needle t

/-- Python membership `needle in v` for a string needle, exactly as evaluated
by `'output' not in item`: key lookup on a dict, element equality on a list,
substring test on a string; a `TypeError` (here: the error message) on an
int, bool or `None` operand. -/
def pyContains (needle : String) : Json → Except String Bool
  | .obj fields => .ok (fields.any (fun p => p.1 == needle))
  | .arr elems => .ok (elems.any (pyStrEq needle))
  | .str s => .ok (listSub needle.data s.data)
  | .num _ => .error "argument of type 'int' is not iterable"
  | .bool _ => .error "argument of type 'bool' is not iterable"
  | .null => .error "argument of type 'NoneType' is not iterable"

/-- Whether the Python membership test is defined on this value (dict, list or
string operand); on the remaining shapes it raises `TypeError`. -/
def canContain : Json → Bool
  | .obj _ => true
  | .arr _ => true
  | .str _ => true
  | _ => false

def hexDigit (n : Nat) : Char :=
  if n < 10 then Char.ofNat (48 + n) else Char.ofNat (87 + n)

def hex4 (n : Nat) : String :=
  String.mk [hexDigit (n / 4096 % 16), hexDigit (n / 256 % 16),
    hexDigit (n / 16 % 16), hexDigit (n % 16)]

/-- One character escaped as CPython `json.dumps` does with its default
`ensure_ascii=True`: printable ASCII other than quote and backslash is kept,
everything else becomes an escape sequence (surrogate pairs above U+FFFF). -/
def escChar (c : Char) : String :=
  if c = '"' then "\\\""
  else if c = '\\' then "\\\\"
  else if c = '\n' then "\\n"
  else if c = '\t' then "\\t"
  else if c = '\r' then "\\r"
  else if c.toNat = 8 then "\\b"
  else if c.toNat = 12 then "\\f"
  else if c.toNat < 32 then "\\u" ++ hex4 c.toNat
  else if c.toNat < 127 then String.singleton c
  else if c.toNat < 65536 then "\\u" ++ hex4 c.toNat
  else "\\u" ++ hex4 (55296 + (c.toNat - 65536) / 1024)
       ++ "\\u" ++ hex4 (56320 + (c.toNat - 65536) % 1024)

def dumpsStr (s : String) : String :=
  "\"" ++ String.join (s.data.map escChar) ++ "\""

mutual
/-- CPython `json.dumps` with default options: separators `", "` and `": "`,
insertion field order, `ensure_ascii=True`. -/
def dumps : Json → String
  | .obj fields => "\x7b" ++ dumpsObj fields ++ "\x7d"
  | .arr elems => "[" ++ dumpsArr elems ++ "]"
  | .str s => dumpsStr s
  | .num n => toString n
  | .bool b => if b then "true" else "false"
  | .null => "null"

def dumpsObj : List (String × Json) → String
  | [] => ""
  | [(k, v)] => dumpsStr k ++ ": " ++ dumps v
  | (k, v) :: rest => dumpsStr k ++ ": " ++ dumps v ++ ", " ++ dumpsObj rest

def dumpsArr : List Json → String
  | [] => ""
  | [v] => dumps v
  | v :: rest => dumps v ++ ", " ++ dumpsArr rest
end

/-- Python `str.split()` whitespace (the ASCII whitespace characters; the
audited data is ASCII). -/
def pySpace (c : Char) : Bool :=
  c == ' ' || c == '\t' || c == '\n' || c == '\r' || c.toNat == 11 || c.toNat == 12

/-- Count of maximal whitespace-free runs: `len(s.split())`.  The boolean flag
records whether the previous character belonged to a word. -/
def wordsAux : List Char → Bool → Nat
  | [], _ => 0
  | c :: rest, inWord =>
    if pySpace c then wordsAux rest false
    else (if inWord then 0 else 1) + wordsAux rest true

def wordCount (s : String) : Nat := wordsAux s.data false

/-- Python `str.splitlines()` on the line boundaries occurring in the audited
data: `\r\n`, `\n` and `\r`; a trailing boundary does not open a final empty
line. -/
def pySplitlinesAux : List Char → List Char → List String
  | [], [] => []
  | [], acc => [String.mk acc.reverse]
  | '\r' :: '\n' :: rest, acc => String.mk acc.reverse :: pySplitlinesAux rest []
  | '\n' :: rest, acc => String.mk acc.reverse :: pySplitlinesAux rest []
  | '\r' :: rest, acc => String.mk acc.reverse :: pySplitlinesAux rest []
  | c :: rest, acc => pySplitlinesAux rest (c :: acc)

def pySplitlines (s : String) : List String := pySplitlinesAux s.data []

/-- The external tokenizer collaborator (`AutoTokenizer.from_pretrained`):
only `len(tokenizer.encode(text))` is ever used by the audit. -/
structure Tok where
  encode : String → List Nat

/-- The tokens the audit adds for one string: the tokenizer length when a
tokenizer was acquired, otherwise the approximation
`len(s.split()) * 1.3`. -/
def tokenCount (tok : Option Tok) (s : String) : ℚ :=
  match tok with
  | some t => ((t.encode s).length : ℚ)
  | none => (wordCount s : ℚ) * (13 / 10)

/-- One line of a `.jsonl` file at the granularity the audit observes it:
blank after `strip()`, or the outcome of `json.loads` on the line. -/
inductive JsonlLine where
  | blank : JsonlLine
  | ok : Json → JsonlLine
  | bad : JsonlLine

/-- A candidate file's content as the audit observes it after
`open(f_path).read()` and the extension dispatch:
`.json` files carry the whole-content `json.loads` outcome (`none` is a
`JSONDecodeError`), `.jsonl` files the per-line outcomes, `.txt`/`.csv`
files the raw text, and `readError` is an exception raised by the read
itself (with its message). -/
inductive FileContent where
  | jsonFile : Option Json → FileContent
  | jsonlFile : List JsonlLine → FileContent
  | textFile : String → FileContent
  | readError : String → FileContent

structure AuditFile where
  name : String
  content : FileContent

/-- The `.jsonl` accumulation loop
`for line in content.splitlines(): if line.strip(): data.append(json.loads(line))`:
the parsed values in order, or failure at the first malformed line (the
raised `JSONDecodeError` discards the partially built list). -/
def parseJsonl : List JsonlLine → Option (List Json)
  | [] => some []
  | .blank :: rest => parseJsonl rest
  | .ok v :: rest => (parseJsonl rest).map (fun d => v :: d)
  | .bad :: _ => none

/-- `if isinstance(data, dict): data = [data]` followed by
`isinstance(data, list)`: a dict is wrapped into a one-element list, a list
passes through, anything else fails the root check. -/
def rootList : Json → Option (List Json)
  | .obj fields => some [.obj fields]
  | .arr elems => some elems
  | _ => none

/-- Outcome of the per-item loop of one file: `done` with the issues it
appended and the tokens it accumulated, or `raised` (a `TypeError` escaping
from the membership test) carrying the issues and tokens accumulated before
the failing element and the exception message. -/
inductive LoopResult where
  | done : List String → ℚ → LoopResult
  | raised : List String → ℚ → String → LoopResult

def missingIssue (name : String) (i : Nat) : String :=
  name ++ " (Item " ++ toString i ++ "): Missing 'output' field."

def readErrorIssue (name msg : String) : String :=
  name ++ ": Read Error - " ++ msg

def invalidJsonIssue (name : String) : String :=
  name ++ ": Invalid JSON syntax."

def rootIssue (name : String) : String :=
  name ++ ": Root element must be a list."

/-- The loop `for i, item in enumerate(data)` of `audit_mode`: the
short-circuit check `'output' not in item and 'response' not in item`
(either membership test may raise), then the token count of
`json.dumps(item)`. -/
def itemLoop (tok : Option Tok) (name : String) : List Json → Nat → LoopResult
  | [], _ => .done [] 0
  | item :: rest, i =>
    match pyContains "output" item with
    | .error msg => .raised [] 0 msg
    | .ok true =>
      match itemLoop tok name rest (i + 1) with
      | .done iss t => .done iss (tokenCount tok (dumps item) + t)
      | .raised iss t m => .raised iss (tokenCount tok (dumps item) + t) m
    | .ok false =>
      match pyContains "response" item with
      | .error msg => .raised [] 0 msg
      | .ok hasResp =>
        let newIss := if hasResp then [] else [missingIssue name i]
        match itemLoop tok name rest (i + 1) with
        | .done iss t => .done (newIss ++ iss) (tokenCount tok (dumps item) + t)
        | .raised iss t m => .raised (newIss ++ iss) (tokenCount tok (dumps item) + t) m

/-- Per-file outcome: `accumulate` reaches the end of the loop body (so
`total_tokens += file_tokens; total_examples += file_examples` runs), `skip`
is the `continue` taken on a non-list root (the totals update is skipped). -/
inductive FileOutcome where
  | accumulate : Nat → ℚ → List String → FileOutcome
  | skip : List String → FileOutcome

/-- The body of the audit loop once a JSON/JSONL file has produced the list
`data`: `file_examples = len(data)` followed by the item loop; a raised
`TypeError` falls to the outer `except Exception` handler, which appends one
Read Error issue, after which the (already set) per-file counters are still
added to the totals. -/
def processData (tok : Option Tok) (name : String) (data : List Json) : FileOutcome :=
  match itemLoop tok name data 0 with
  | .done iss t => .accumulate data.length t iss
  | .raised iss t msg => .accumulate data.length t (iss ++ [readErrorIssue name msg])

/-- One iteration of `for f_path in files` in `audit_mode`. -/
def processFile (tok : Option Tok) (f : AuditFile) : FileOutcome :=
  match f.content with
  | .readError msg => .accumulate 0 0 [readErrorIssue f.name msg]
  | .jsonFile none => .accumulate 0 0 [invalidJsonIssue f.name]
  | .jsonFile (some v) =>
    match rootList v with
    | none => .skip [rootIssue f.name]
    | some data => processData tok f.name data
  | .jsonlFile lines =>
    match parseJsonl lines with
    | none => .accumulate 0 0 [invalidJsonIssue f.name]
    | some data => processData tok f.name data
  | .textFile content =>
    .accumulate (pySplitlines content).length (tokenCount tok content) []

/-- The accumulator owned by one `audit_mode` invocation. -/
structure AuditState where
  totalTokens : ℚ
  totalExamples : Nat
  issues : List String

def initState : AuditState := { totalTokens := 0, totalExamples := 0, issues := [] }

def auditStep (tok : Option Tok) (st : AuditState) (f : AuditFile) : AuditState :=
  match processFile tok f with
  | .accumulate ex tks iss =>
    { totalTokens := st.totalTokens + tks
      totalExamples := st.totalExamples + ex
      issues := st.issues ++ iss }
  | .skip iss => { st with issues := st.issues ++ iss }

def runAudit (tok : Option Tok) (files : List AuditFile) : AuditState :=
  files.foldl (auditStep tok) initState

/-- Python `int(x)`: truncation toward zero. -/
def pyInt (q : ℚ) : Int := if 0 ≤ q then ⌊q⌋ else ⌈q⌉

/-- The readiness score of the Doctor's Diagnosis section, translated from
the four `if` statements of `audit_mode`. -/
def readinessScore (totalExamples : Nat) (totalTokens : ℚ) (issues : List String) : Nat :=
  (if 10 < totalExamples then 1 else 0) +
  (if 100 < totalExamples then 1 else 0) +
  (if 10000 < totalTokens then 1 else 0) +
  (if issues.isEmpty then 1 else 0)

/-- The tier printed by the diagnosis `if readiness_score >= 4 / elif >= 2 / else`. -/
def tierOf (score : Nat) : String :=
  if 4 ≤ score then "Excellent"
  else if 2 ≤ score then "Fair"
  else "Needs Work"

structure AuditReport where
  totalFiles : Nat
  totalExamples : Nat
  totalTokens : Int
  issues : List String
  tokenizerWarning : Bool
  tier : String

/-- `tokenizer = AutoTokenizer.from_pretrained(MODEL_ID)` guarded by
`try/except`: a failed acquisition leaves `tokenizer = None` (and prints the
tokenizer warning). -/
def tokOfAcq (acq : Except String Tok) : Option Tok :=
  match acq with
  | .ok t => some t
  | .error _ => none

/-- The report section of `audit_mode`: the printed vitals
(`len(files)`, `total_examples`, `int(total_tokens)`), the issue list, the
tokenizer warning, and the diagnosis tier. -/
def mkReport (acq : Except String Tok) (files : List AuditFile) : AuditReport :=
  { totalFiles := files.length
    totalExamples := (runAudit (tokOfAcq acq) files).totalExamples
    totalTokens := pyInt (runAudit (tokOfAcq acq) files).totalTokens
    issues := (runAudit (tokOfAcq acq) files).issues
    tokenizerWarning := (tokOfAcq acq).isNone
    tier := tierOf (readinessScore (runAudit (tokOfAcq acq) files).totalExamples
      (runAudit (tokOfAcq acq) files).totalTokens
      (runAudit (tokOfAcq acq) files).issues) }

/-- What one `audit_mode` invocation produces: the early `return` on a
missing path, the early `return` on an empty candidate list (only the
no-compatible-files warning is printed), or the full report. -/
inductive AuditResult where
  | pathNotFound : AuditResult
  | noCompatibleFiles : AuditResult
  | report : AuditReport → AuditResult

def auditMode (pathExists : Bool) (acq : Except String Tok) (files : List AuditFile) :
    AuditResult :=
  if !pathExists then .pathNotFound
  else if files.isEmpty then .noCompatibleFiles
  else .report (mkReport acq files)

def resultIsReport : AuditResult → Bool
  | .report _ => true
  | _ => false

/-- An entry of the recursive `glob` listing: its path and whether it is a
regular file (`os.path.isfile`). -/
structure DirEntry where
  path : String
  regular : Bool

/-- `suff` is a suffix of `s` (Python `str.endswith`). -/
def strEnds (s suff : String) : Bool :=
  listPre suff.data.reverse s.data.reverse

/-- The candidate filter of `audit_mode`:
`os.path.isfile(f) and f.endswith(('.json', '.jsonl', '.txt', '.csv'))`. -/
def compatible (e : DirEntry) : Bool :=
  e.regular && (strEnds e.path ".json" || strEnds e.path ".jsonl"
    || strEnds e.path ".txt" || strEnds e.path ".csv")

def filterCompatible (entries : List DirEntry) : List DirEntry :=
  entries.filter compatible

/-- The examples one file adds to `total_examples` (zero on the `continue`
path, whose per-file counters are still zero when it is taken). -/
def contribEx (tok : Option Tok) (f : AuditFile) : Nat :=
  match processFile tok f with
  | .accumulate ex _ _ => ex
  | .skip _ => 0

/-- The tokens one file adds to `total_tokens`. -/
def contribTks (tok : Option Tok) (f : AuditFile) : ℚ :=
  match processFile tok f with
  | .accumulate _ tks _ => tks
  | .skip _ => 0

/-- The issues one file appends to `issues`. -/
def contribIss (tok : Option Tok) (f : AuditFile) : List String :=
  match processFile tok f with
  | .accumulate _ _ iss => iss
  | .skip iss => iss

def concatAll : List (List String) → List String
  | [] => []
  | l :: ls => l ++ concatAll ls

/-- Rank of a tier on the order "Needs Work" < "Fair" < "Excellent". -/
def tierRank (t : String) : Nat :=
  if t == "Excellent" then 2 else if t == "Fair" then 1 else 0

/-- The readiness score as worded by the claim: the sum of four independent
`+1` contributions — total examples > 10, total examples > 100, total tokens
> 10,000, and zero recorded issues.  Stated from the claim's words, to be
compared with `readinessScore` as translated from the code. -/
def claimScore (st : AuditState) : Nat :=
  (if 10 < st.totalExamples then 1 else 0) +
  (if 100 < st.totalExamples then 1 else 0) +
  (if 10000 < st.totalTokens then 1 else 0) +
  (if st.issues = [] then 1 else 0)

/-- Python truthiness of the short-circuit membership check, on values where
it is defined: the element has an `output` field or a `response` field. -/
def hasOutOrResp (v : Json) : Bool :=
  match pyContains "output" v, pyContains "response" v with
  | .ok a, .ok b => a || b
  | _, _ => false

/-- The missing-field issues the claim describes for a parsed list: one issue
per element lacking both fields, naming the file and the element's 0-based
position, none for the others, in element order.  Stated from the claim's
words, to be compared with what `itemLoop` records. -/
def expectedItemIssues (name : String) (i : Nat) : List Json → List String
  | [] => []
  | v :: rest =>
    (if hasOutOrResp v then [] else [missingIssue name i]) ++
      expectedItemIssues name (i + 1) rest

/-- The tokens accumulated by the per-item loop whether or not it completed. -/
def loopTokens : LoopResult → ℚ
  | .done _ t => t
  | .raised _ t _ => t

/-- Token total of a fully processed item list. -/
def dataTokens (tok : Option Tok) (data : List Json) : ℚ :=
  (data.map (fun v => tokenCount tok (dumps v))).sum

/-- The `str(e)` message of the `TypeError` raised by the membership test on a
non-container operand (empty on operands where the test succeeds). -/
def typeErrMsg : Json → String
  | .num _ => "argument of type 'int' is not iterable"
  | .bool _ => "argument of type 'bool' is not iterable"
  | .null => "argument of type 'NoneType' is not iterable"
  | _ => ""

lemma tokenCount_nonneg (tok : Option Tok) (s : String) : 0 ≤ tokenCount tok s := by
  cases tok with
  | none =>
    have h1 : (0 : ℚ) ≤ (wordCount s : ℚ) := by positivity
    have h2 : (0 : ℚ) ≤ 13 / 10 := by norm_num
    rw [tokenCount]
    exact mul_nonneg h1 h2
  | some t => simp [tokenCount]

lemma pyContains_of_canContain (needle : String) (v : Json) (h : canContain v = true) :
    pyContains needle v = .ok (match pyContains needle v with | .ok b => b | .error _ => false) := by
  cases v <;> simp [canContain] at h <;> rfl

lemma pyContains_of_not_canContain (needle : String) (v : Json) (h : canContain v = false) :
    pyContains needle v = .error (typeErrMsg v) := by
  cases v <;> simp [canContain] at h <;> rfl

lemma loopTokens_nonneg (tok : Option Tok) (name : String) :
    ∀ (data : List Json) (i : Nat), 0 ≤ loopTokens (itemLoop tok name data i) := by
  intro data
  induction data with
  | nil => intro i; simp [itemLoop, loopTokens]
  | cons item rest ih =>
    intro i
    have hle := ih (i + 1)
    have htc := tokenCount_nonneg tok (dumps item)
    rw [itemLoop]
    cases pyContains "output" item with
    | error msg => simp [loopTokens]
    | ok b =>
      cases b with
      | true =>
        cases hrec : itemLoop tok name rest (i + 1) with
        | done iss t =>
          rw [hrec, loopTokens] at hle
          simpa [loopTokens] using add_nonneg htc hle
        | raised iss t m =>
          rw [hrec, loopTokens] at hle
          simpa [loopTokens] using add_nonneg htc hle
      | false =>
        cases pyContains "response" item with
        | error msg => simp [loopTokens]
        | ok b2 =>
          cases hrec : itemLoop tok name rest (i + 1) with
          | done iss t =>
            rw [hrec, loopTokens] at hle
            simpa [loopTokens] using add_nonneg htc hle
          | raised iss t m =>
            rw [hrec, loopTokens] at hle
            simpa [loopTokens] using add_nonneg htc hle

lemma processData_tokens_nonneg (tok : Option Tok) (name : String) (data : List Json) :
    ∀ ex tks iss, processData tok name data = .accumulate ex tks iss → 0 ≤ tks := by
  intro ex tks iss h
  have h0 := loopTokens_nonneg tok name data 0
  rw [processData] at h
  cases hrec : itemLoop tok name data 0 with
  | done iss2 t =>
    rw [hrec, loopTokens] at h0
    rw [hrec] at h
    cases h
    exact h0
  | raised iss2 t m =>
    rw [hrec, loopTokens] at h0
    rw [hrec] at h
    cases h
    exact h0

lemma contribTks_nonneg (tok : Option Tok) (f : AuditFile) : 0 ≤ contribTks tok f := by
  rcases f with ⟨name, content⟩
  cases content with
  | readError msg => simp [contribTks, processFile]
  | textFile c => simpa [contribTks, processFile] using tokenCount_nonneg tok c
  | jsonFile o =>
    cases o with
    | none => simp [contribTks, processFile]
    | some v =>
      cases h : rootList v with
      | none => simp [contribTks, processFile, h]
      | some data =>
        simp only [contribTks, processFile, h]
        cases hd : processData tok name data with
        | accumulate ex tks iss =>
          simpa [hd] using processData_tokens_nonneg tok name data ex tks iss hd
        | skip iss => simp [hd]
  | jsonlFile lines =>
    cases h : parseJsonl lines with
    | none => simp [contribTks, processFile, h]
    | some data =>
      simp only [contribTks, processFile, h]
      cases hd : processData tok name data with
      | accumulate ex tks iss =>
        simpa [hd] using processData_tokens_nonneg tok name data ex tks iss hd
      | skip iss => simp [hd]

lemma auditStep_eq (tok : Option Tok) (st : AuditState) (f : AuditFile) :
    auditStep tok st f =
      ⟨st.totalTokens + contribTks tok f, st.totalExamples + contribEx tok f,
        st.issues ++ contribIss tok f⟩ := by
  rw [auditStep, contribTks, contribEx, contribIss]
  cases processFile tok f with
  | accumulate ex tks iss => rfl
  | skip iss => cases st; simp

lemma foldl_decomp (tok : Option Tok) :
    ∀ (files : List AuditFile) (st : AuditState),
      files.foldl (auditStep tok) st =
        ⟨st.totalTokens + (files.map (contribTks tok)).sum,
          st.totalExamples + (files.map (contribEx tok)).sum,
          st.issues ++ concatAll (files.map (contribIss tok))⟩ := by
  intro files
  induction files with
  | nil => intro st; cases st; simp [concatAll]
  | cons f fs ih =>
    intro st
    rw [List.foldl_cons, ih, auditStep_eq]
    simp [concatAll, add_assoc]

lemma runAudit_decomp (tok : Option Tok) (files : List AuditFile) :
    runAudit tok files =
      ⟨(files.map (contribTks tok)).sum, (files.map (contribEx tok)).sum,
        concatAll (files.map (contribIss tok))⟩ := by
  rw [runAudit, foldl_decomp]
  simp [initState]

lemma readinessScore_eq_claim (st : AuditState) :
    readinessScore st.totalExamples st.totalTokens st.issues = claimScore st := by
  rw [readinessScore, claimScore]
  cases st.issues <;> simp

lemma claimScore_le_four (st : AuditState) : claimScore st ≤ 4 := by
  rw [claimScore]
  split_ifs <;> omega

lemma tierRank_tierOf (s : Nat) :
    tierRank (tierOf s) = if 4 ≤ s then 2 else if 2 ≤ s then 1 else 0 := by
  rw [tierOf]
  split_ifs <;> rfl

lemma tierRank_tierOf_mono {a b : Nat} (h : a ≤ b) :
    tierRank (tierOf a) ≤ tierRank (tierOf b) := by
  rw [tierRank_tierOf, tierRank_tierOf]
  split_ifs <;> omega

lemma claimScore_mono (s1 s2 : AuditState)
    (hex : s2.totalExamples < s1.totalExamples)
    (htk : s2.totalTokens < s1.totalTokens)
    (hiss : s1.issues.length ≤ s2.issues.length) :
    claimScore s2 ≤ claimScore s1 := by
  rw [claimScore, claimScore]
  have h1 : (if 10 < s2.totalExamples then 1 else 0) ≤
      (if 10 < s1.totalExamples then (1 : Nat) else 0) := by split_ifs <;> omega
  have h2 : (if 100 < s2.totalExamples then 1 else 0) ≤
      (if 100 < s1.totalExamples then (1 : Nat) else 0) := by split_ifs <;> omega
  have h3 : (if 10000 < s2.totalTokens then 1 else 0) ≤
      (if 10000 < s1.totalTokens then (1 : Nat) else 0) := by
    split_ifs with ha hb
    · exact le_refl 1
    · exact absurd (ha.trans htk) hb
    · omega
    · exact le_refl 0
  have h4 : (if s2.issues = [] then 1 else 0) ≤
      (if s1.issues = [] then (1 : Nat) else 0) := by
    split_ifs with ha hb
    · exact le_refl 1
    · rw [ha] at hiss
      simp only [List.length_nil, Nat.le_zero, List.length_eq_zero] at hiss
      exact absurd hiss hb
    · omega
    · exact le_refl 0
  exact add_le_add (add_le_add (add_le_add h1 h2) h3) h4

lemma pyContains_ok_of_canContain (needle : String) (v : Json) (h : canContain v = true) :
    ∃ b, pyContains needle v = .ok b := by
  cases v with
  | obj fields => exact ⟨_, rfl⟩
  | arr elems => exact ⟨_, rfl⟩
  | str s => exact ⟨_, rfl⟩
  | num n => simp [canContain] at h
  | bool b => simp [canContain] at h
  | null => simp [canContain] at h

lemma itemLoop_all (tok : Option Tok) (name : String) :
    ∀ (data : List Json) (i : Nat), data.all canContain = true →
      itemLoop tok name data i =
        .done (expectedItemIssues name i data) (dataTokens tok data) := by
  intro data
  induction data with
  | nil => intro i _; simp [itemLoop, expectedItemIssues, dataTokens]
  | cons item rest ih =>
    intro i hall
    rw [List.all_cons, Bool.and_eq_true] at hall
    obtain ⟨hitem, hrest⟩ := hall
    obtain ⟨b1, h1⟩ := pyContains_ok_of_canContain "output" item hitem
    obtain ⟨b2, h2⟩ := pyContains_ok_of_canContain "response" item hitem
    have hrec := ih (i + 1) hrest
    cases b1 with
    | true => simp [itemLoop, h1, h2, hrec, expectedItemIssues, dataTokens, hasOutOrResp]
    | false =>
      cases b2 with
      | true => simp [itemLoop, h1, h2, hrec, expectedItemIssues, dataTokens, hasOutOrResp]
      | false => simp [itemLoop, h1, h2, hrec, expectedItemIssues, dataTokens, hasOutOrResp]

lemma itemLoop_raised (tok : Option Tok) (name : String) (bad : Json) (post : List Json)
    (hbad : canContain bad = false) :
    ∀ (pre : List Json) (i : Nat), pre.all canContain = true →
      itemLoop tok name (pre ++ bad :: post) i =
        .raised (expectedItemIssues name i pre) (dataTokens tok pre) (typeErrMsg bad) := by
  intro pre
  induction pre with
  | nil =>
    intro i _
    have h1 := pyContains_of_not_canContain "output" bad hbad
    simp [itemLoop, h1, expectedItemIssues, dataTokens]
  | cons item rest ih =>
    intro i hall
    rw [List.all_cons, Bool.and_eq_true] at hall
    obtain ⟨hitem, hrest⟩ := hall
    obtain ⟨b1, h1⟩ := pyContains_ok_of_canContain "output" item hitem
    obtain ⟨b2, h2⟩ := pyContains_ok_of_canContain "response" item hitem
    have hrec := ih (i + 1) hrest
    cases b1 with
    | true => simp [itemLoop, h1, h2, hrec, expectedItemIssues, dataTokens, hasOutOrResp]
    | false =>
      cases b2 with
      | true => simp [itemLoop, h1, h2, hrec, expectedItemIssues, dataTokens, hasOutOrResp]
      | false => simp [itemLoop, h1, h2, hrec, expectedItemIssues, dataTokens, hasOutOrResp]

lemma processData_all (tok : Option Tok) (name : String) (data : List Json)
    (hall : data.all canContain = true) :
    processData tok name data =
      .accumulate data.length (dataTokens tok data) (expectedItemIssues name 0 data) := by
  rw [processData, itemLoop_all tok name data 0 hall]

lemma processData_raised (tok : Option Tok) (name : String) (pre : List Json) (bad : Json)
    (post : List Json) (hall : pre.all canContain = true) (hbad : canContain bad = false) :
    processData tok name (pre ++ bad :: post) =
      .accumulate (pre ++ bad :: post).length (dataTokens tok pre)
        (expectedItemIssues name 0 pre ++ [readErrorIssue name (typeErrMsg bad)]) := by
  rw [processData, itemLoop_raised tok name bad post hbad pre 0 hall]

lemma rootIssue_ne_missingIssue (name : String) (i : Nat) :
    rootIssue name ≠ missingIssue name i := by
  intro h
  rw [rootIssue, missingIssue] at h
  have hd := congrArg String.data h
  simp only [String.data_append] at hd
  simp only [List.append_assoc] at hd
  have hd2 := List.append_cancel_left hd
  simp at hd2

lemma isEmpty_false_of_ne_nil {files : List AuditFile} (h : files ≠ []) :
    files.isEmpty = false := by
  cases files with
  | nil => exact absurd rfl h
  | cons a l => rfl

/-- Claim C1: every audit run that reaches the reporting stage computes a
readiness score in {0,1,2,3,4} as the sum of four independent +1
contributions — total examples > 10, total examples > 100, total tokens >
10,000, zero recorded issues — and reports tier "Excellent" when the score is
≥ 4, "Fair" when 2 ≤ score < 4, and "Needs Work" when score < 2. -/
theorem C1_readiness_score_and_tier (acq : Except String Tok) (files : List AuditFile)
    (h : files ≠ []) :
    auditMode true acq files = .report (mkReport acq files) ∧
    claimScore (runAudit (tokOfAcq acq) files) ≤ 4 ∧
    (mkReport acq files).tier =
      (if 4 ≤ claimScore (runAudit (tokOfAcq acq) files) then "Excellent"
       else if 2 ≤ claimScore (runAudit (tokOfAcq acq) files) then "Fair"
       else "Needs Work") := by
  refine ⟨?_, claimScore_le_four _, ?_⟩
  · rw [auditMode]
    simp [isEmpty_false_of_ne_nil h]
  · simp only [mkReport]
    rw [readinessScore_eq_claim, tierOf]

/-- Witness for C1 at a concrete one-file run. -/
theorem C1_readiness_score_and_tier_witness :
    auditMode true (Except.error "offline") [⟨"a.txt", FileContent.textFile "hello"⟩] =
      .report (mkReport (Except.error "offline") [⟨"a.txt", FileContent.textFile "hello"⟩]) ∧
    claimScore (runAudit (tokOfAcq (Except.error "offline"))
      [⟨"a.txt", FileContent.textFile "hello"⟩]) ≤ 4 ∧
    (mkReport (Except.error "offline") [⟨"a.txt", FileContent.textFile "hello"⟩]).tier =
      (if 4 ≤ claimScore (runAudit (tokOfAcq (Except.error "offline"))
          [⟨"a.txt", FileContent.textFile "hello"⟩]) then "Excellent"
       else if 2 ≤ claimScore (runAudit (tokOfAcq (Except.error "offline"))
          [⟨"a.txt", FileContent.textFile "hello"⟩]) then "Fair"
       else "Needs Work") :=
  C1_readiness_score_and_tier (Except.error "offline")
    [⟨"a.txt", FileContent.textFile "hello"⟩] (by simp)

/-- Claim C3: across the per-file loop, `total_examples` and `total_tokens`
are monotonically non-decreasing (each file contributes a non-negative
amount), and a file that fails to parse — a `.json` file whose whole-content
parse fails, or a `.jsonl` file with a malformed line — contributes zero
examples, zero tokens, and exactly one Issue. -/
theorem C3_monotone_totals_and_parse_failure (tok : Option Tok) (st : AuditState)
    (f : AuditFile) (name name2 : String) (lines : List JsonlLine)
    (hbad : parseJsonl lines = none) :
    st.totalExamples ≤ (auditStep tok st f).totalExamples ∧
    st.totalTokens ≤ (auditStep tok st f).totalTokens ∧
    processFile tok ⟨name, .jsonFile none⟩ = .accumulate 0 0 [invalidJsonIssue name] ∧
    processFile tok ⟨name2, .jsonlFile lines⟩ = .accumulate 0 0 [invalidJsonIssue name2] := by
  refine ⟨?_, ?_, rfl, ?_⟩
  · rw [auditStep_eq]
    exact Nat.le_add_right _ _
  · rw [auditStep_eq]
    exact le_add_of_nonneg_right (contribTks_nonneg tok f)
  · simp [processFile, hbad]

/-- Witness for C3 at a concrete state, file and malformed line list. -/
theorem C3_monotone_totals_and_parse_failure_witness :
    initState.totalExamples ≤
      (auditStep none initState ⟨"a.txt", FileContent.textFile "hi"⟩).totalExamples ∧
    initState.totalTokens ≤
      (auditStep none initState ⟨"a.txt", FileContent.textFile "hi"⟩).totalTokens ∧
    processFile none ⟨"b.json", FileContent.jsonFile none⟩ =
      .accumulate 0 0 [invalidJsonIssue "b.json"] ∧
    processFile none ⟨"c.jsonl", FileContent.jsonlFile [JsonlLine.bad]⟩ =
      .accumulate 0 0 [invalidJsonIssue "c.jsonl"] :=
  C3_monotone_totals_and_parse_failure none initState ⟨"a.txt", FileContent.textFile "hi"⟩
    "b.json" "c.jsonl" [JsonlLine.bad] rfl

/-- Claim C5: a `.json` file whose parsed root is neither an object nor a
list gets exactly one "Root element must be a list" Issue and contributes
zero examples and zero tokens to the totals. -/
theorem C5_non_list_root (tok : Option Tok) (st : AuditState) (name : String) (v : Json)
    (h : rootList v = none) :
    processFile tok ⟨name, .jsonFile (some v)⟩ = .skip [rootIssue name] ∧
    (auditStep tok st ⟨name, .jsonFile (some v)⟩).totalExamples = st.totalExamples ∧
    (auditStep tok st ⟨name, .jsonFile (some v)⟩).totalTokens = st.totalTokens ∧
    (auditStep tok st ⟨name, .jsonFile (some v)⟩).issues = st.issues ++ [rootIssue name] := by
  have hp : processFile tok ⟨name, .jsonFile (some v)⟩ = .skip [rootIssue name] := by
    simp [processFile, h]
  refine ⟨hp, ?_, ?_, ?_⟩ <;> rw [auditStep, hp]

/-- Witness for C5 at the bare number root `7`. -/
theorem C5_non_list_root_witness :
    processFile none ⟨"c.json", FileContent.jsonFile (some (Json.num 7))⟩ =
      .skip [rootIssue "c.json"] ∧
    (auditStep none initState ⟨"c.json", FileContent.jsonFile (some (Json.num 7))⟩).totalExamples =
      initState.totalExamples ∧
    (auditStep none initState ⟨"c.json", FileContent.jsonFile (some (Json.num 7))⟩).totalTokens =
      initState.totalTokens ∧
    (auditStep none initState ⟨"c.json", FileContent.jsonFile (some (Json.num 7))⟩).issues =
      initState.issues ++ [rootIssue "c.json"] :=
  C5_non_list_root none initState "c.json" (Json.num 7) rfl

/-- Claim C6: a `.json` file whose parsed root is a single object is treated
as a one-element list: its example count is 1, the object's fields are
checked for `output`/`response`, and no "Root element must be a list" Issue
is recorded. -/
theorem C6_single_object_root (tok : Option Tok) (name : String)
    (fields : List (String × Json)) :
    processFile tok ⟨name, .jsonFile (some (.obj fields))⟩ =
      processData tok name [.obj fields] ∧
    contribEx tok ⟨name, .jsonFile (some (.obj fields))⟩ = 1 ∧
    contribIss tok ⟨name, .jsonFile (some (.obj fields))⟩ =
      (if hasOutOrResp (.obj fields) then [] else [missingIssue name 0]) ∧
    rootIssue name ∉ contribIss tok ⟨name, .jsonFile (some (.obj fields))⟩ := by
  have hall : [Json.obj fields].all canContain = true := rfl
  have hp : processFile tok ⟨name, .jsonFile (some (.obj fields))⟩ =
      processData tok name [.obj fields] := rfl
  have hd := processData_all tok name [Json.obj fields] hall
  have hiss : contribIss tok ⟨name, .jsonFile (some (.obj fields))⟩ =
      (if hasOutOrResp (.obj fields) then [] else [missingIssue name 0]) := by
    rw [contribIss, hp, hd]
    simp [expectedItemIssues]
  refine ⟨hp, ?_, hiss, ?_⟩
  · simp [contribEx, hp, hd]
  · rw [hiss]
    split_ifs
    · simp
    · simp [rootIssue_ne_missingIssue name 0]

/-- Claim C7: every per-file failure is caught, converted into one Issue, and
does not abort the scan: a run's totals and issue list decompose into
independent per-file contributions (so a failure in file i leaves the
processing and counting of files i+1..n unchanged), read failures and parse
failures each contribute exactly one Issue, and the embedding of one audit
invocation is a total function — nothing propagates out of it. -/
theorem C7_failures_isolated (tok : Option Tok) (files : List AuditFile) :
    (runAudit tok files).totalExamples = (files.map (contribEx tok)).sum ∧
    (runAudit tok files).totalTokens = (files.map (contribTks tok)).sum ∧
    (runAudit tok files).issues = concatAll (files.map (contribIss tok)) ∧
    (∀ name msg, contribEx tok ⟨name, .readError msg⟩ = 0 ∧
      contribTks tok ⟨name, .readError msg⟩ = 0 ∧
      contribIss tok ⟨name, .readError msg⟩ = [readErrorIssue name msg]) ∧
    (∀ name, contribIss tok ⟨name, .jsonFile none⟩ = [invalidJsonIssue name]) := by
  refine ⟨?_, ?_, ?_, fun name msg => ⟨rfl, rfl, rfl⟩, fun name => rfl⟩ <;>
    rw [runAudit_decomp]

/-- Claim C9: the tokenizer acquisition outcome is fixed once, before the
loop; when it fails, the approximation `words × 1.3` is what the run adds for
every tokenized string for the remainder of the run, the per-file token
contributions are accumulated exactly (as rationals), truncation is applied
only once — to the final reported total — and the tokenizer warning is
surfaced. -/
theorem C9_tokenizer_fallback (msg : String) (files : List AuditFile) (h : files ≠ []) :
    auditMode true (.error msg) files = .report (mkReport (.error msg) files) ∧
    (mkReport (.error msg) files).tokenizerWarning = true ∧
    (∀ s : String, tokenCount (tokOfAcq (.error msg)) s = (wordCount s : ℚ) * (13 / 10)) ∧
    (runAudit (tokOfAcq (.error msg)) files).totalTokens =
      (files.map (contribTks (tokOfAcq (.error msg)))).sum ∧
    (mkReport (.error msg) files).totalTokens =
      pyInt ((files.map (contribTks (tokOfAcq (.error msg)))).sum) ∧
    pyInt ((files.map (contribTks (tokOfAcq (.error msg)))).sum) =
      ⌊(files.map (contribTks (tokOfAcq (.error msg)))).sum⌋ := by
  have hdec := runAudit_decomp (tokOfAcq (.error msg)) files
  have hnn : 0 ≤ (files.map (contribTks (tokOfAcq (.error msg)))).sum := by
    apply List.sum_nonneg
    intro x hx
    obtain ⟨f, _, rfl⟩ := List.mem_map.mp hx
    exact contribTks_nonneg _ f
  refine ⟨?_, rfl, fun s => rfl, ?_, ?_, ?_⟩
  · rw [auditMode]
    simp [isEmpty_false_of_ne_nil h]
  · rw [hdec]
  · simp only [mkReport]
    rw [hdec]
  · rw [pyInt, if_pos hnn]

/-- Witness for C9 at a concrete one-file run. -/
theorem C9_tokenizer_fallback_witness :
    auditMode true (.error "offline") [⟨"a.txt", FileContent.textFile "hi"⟩] =
      .report (mkReport (.error "offline") [⟨"a.txt", FileContent.textFile "hi"⟩]) ∧
    (mkReport (.error "offline") [⟨"a.txt", FileContent.textFile "hi"⟩]).tokenizerWarning
      = true ∧
    (∀ s : String, tokenCount (tokOfAcq (.error "offline")) s =
      (wordCount s : ℚ) * (13 / 10)) ∧
    (runAudit (tokOfAcq (.error "offline"))
        [⟨"a.txt", FileContent.textFile "hi"⟩]).totalTokens =
      ([⟨"a.txt", FileContent.textFile "hi"⟩].map
        (contribTks (tokOfAcq (.error "offline")))).sum ∧
    (mkReport (.error "offline") [⟨"a.txt", FileContent.textFile "hi"⟩]).totalTokens =
      pyInt (([⟨"a.txt", FileContent.textFile "hi"⟩].map
        (contribTks (tokOfAcq (.error "offline")))).sum) ∧
    pyInt (([⟨"a.txt", FileContent.textFile "hi"⟩].map
        (contribTks (tokOfAcq (.error "offline")))).sum) =
      ⌊([⟨"a.txt", FileContent.textFile "hi"⟩].map
        (contribTks (tokOfAcq (.error "offline")))).sum⌋ :=
  C9_tokenizer_fallback "offline" [⟨"a.txt", FileContent.textFile "hi"⟩] (by simp)

/-- Claim C2 counterexample: an existing directory whose listing holds only a
non-compatible file and a subdirectory has zero compatible files, and the
audit then returns the no-compatible-files warning — it produces no report at
all, so no report with zero totals and tier "Needs Work" is produced. -/
theorem C2_counterexample :
    filterCompatible [⟨"notes.md", true⟩, ⟨"backup", false⟩] = [] ∧
    auditMode true (Except.error "offline") [] = AuditResult.noCompatibleFiles ∧
    resultIsReport (auditMode true (Except.error "offline") []) = false :=
  ⟨rfl, rfl, rfl⟩

/-- Claim C2 amended: for every existing directory containing zero compatible
files, the audit reports the no-compatible-files warning and returns without
producing a report; the reporting stage, had it been reached with the empty
file list, would have shown all-zero totals and tier "Needs Work". -/
theorem C2_no_compatible_files (acq : Except String Tok) (entries : List DirEntry)
    (load : DirEntry → AuditFile) (h : filterCompatible entries = []) :
    auditMode true acq ((filterCompatible entries).map load) =
      AuditResult.noCompatibleFiles ∧
    mkReport acq [] =
      { totalFiles := 0, totalExamples := 0, totalTokens := 0, issues := [],
        tokenizerWarning := (tokOfAcq acq).isNone, tier := "Needs Work" } := by
  constructor
  · rw [h]
    rfl
  · simp only [mkReport, runAudit, List.foldl_nil, initState]
    norm_num [readinessScore, tierOf, pyInt]

/-- Witness for C2 amended at a concrete listing. -/
theorem C2_no_compatible_files_witness :
    auditMode true (Except.error "offline")
        ((filterCompatible [⟨"notes.md", true⟩]).map
          (fun _ => ⟨"x", FileContent.textFile ""⟩)) =
      AuditResult.noCompatibleFiles ∧
    mkReport (Except.error "offline") [] =
      { totalFiles := 0, totalExamples := 0, totalTokens := 0, issues := [],
        tokenizerWarning := (tokOfAcq (Except.error "offline" : Except String Tok)).isNone,
        tier := "Needs Work" } :=
  C2_no_compatible_files (Except.error "offline") [⟨"notes.md", true⟩]
    (fun _ => ⟨"x", FileContent.textFile ""⟩) rfl

/-- Claim C4: the readiness tier is monotonic — a run with strictly more
total examples, strictly more total tokens, and no more issues than another
never reports a lower tier on the order "Needs Work" < "Fair" < "Excellent". -/
theorem C4_tier_monotone (acq1 acq2 : Except String Tok)
    (files1 files2 : List AuditFile)
    (hex : (runAudit (tokOfAcq acq2) files2).totalExamples <
      (runAudit (tokOfAcq acq1) files1).totalExamples)
    (htk : (runAudit (tokOfAcq acq2) files2).totalTokens <
      (runAudit (tokOfAcq acq1) files1).totalTokens)
    (hiss : (runAudit (tokOfAcq acq1) files1).issues.length ≤
      (runAudit (tokOfAcq acq2) files2).issues.length) :
    tierRank (mkReport acq2 files2).tier ≤ tierRank (mkReport acq1 files1).tier := by
  have h1 : (mkReport acq1 files1).tier =
      tierOf (claimScore (runAudit (tokOfAcq acq1) files1)) := by
    simp only [mkReport]
    rw [readinessScore_eq_claim]
  have h2 : (mkReport acq2 files2).tier =
      tierOf (claimScore (runAudit (tokOfAcq acq2) files2)) := by
    simp only [mkReport]
    rw [readinessScore_eq_claim]
  rw [h1, h2]
  exact tierRank_tierOf_mono (claimScore_mono _ _ hex htk hiss)

/-- Witness for C4 at two concrete runs. -/
theorem C4_tier_monotone_witness :
    tierRank (mkReport (Except.error "x") [⟨"b.txt", FileContent.textFile ""⟩]).tier ≤
      tierRank (mkReport (Except.error "x") [⟨"a.txt", FileContent.textFile "w1 w2"⟩]).tier :=
  C4_tier_monotone (Except.error "x") (Except.error "x")
    [⟨"a.txt", FileContent.textFile "w1 w2"⟩] [⟨"b.txt", FileContent.textFile ""⟩]
    (by decide)
    (by
      have e1 : wordCount "w1 w2" = 2 := rfl
      have e2 : wordCount "" = 0 := rfl
      simp [runAudit, auditStep, processFile, tokenCount, initState, tokOfAcq, e1, e2])
    (by decide)

/-- Claim C8 counterexample: in `x.json` with root list `[5]`, the element at
position 0 has neither an `output` nor a `response` field, yet no Issue
naming the file and position 0 is recorded — the membership test raises
`TypeError`, which the per-file handler converts into a Read Error issue. -/
theorem C8_counterexample :
    hasOutOrResp (Json.num 5) = false ∧
    contribIss none ⟨"x.json", FileContent.jsonFile (some (Json.arr [Json.num 5]))⟩ =
      [readErrorIssue "x.json" "argument of type 'int' is not iterable"] ∧
    (contribIss none ⟨"x.json", FileContent.jsonFile (some (Json.arr [Json.num 5]))⟩).count
      (missingIssue "x.json" 0) = 0 :=
  ⟨rfl, rfl, rfl⟩

/-- Claim C8 amended: for a parsed JSON/JSONL list all of whose elements
support the membership test (each is an object, array, or string), the
recorded missing-field issues are exactly one per element having neither an
`output` nor a `response` field — naming the file and the element's 0-based
position — and none for elements having either field, in element order; this
holds for `.json` array roots and parsed `.jsonl` line lists alike. -/
theorem C8_missing_field_issues (tok : Option Tok) (name : String) (data : List Json)
    (lines : List JsonlLine) (hall : data.all canContain = true)
    (hl : parseJsonl lines = some data) :
    processData tok name data =
      .accumulate data.length (dataTokens tok data) (expectedItemIssues name 0 data) ∧
    contribIss tok ⟨name, .jsonFile (some (.arr data))⟩ = expectedItemIssues name 0 data ∧
    contribIss tok ⟨name, .jsonlFile lines⟩ = expectedItemIssues name 0 data := by
  have hd := processData_all tok name data hall
  refine ⟨hd, ?_, ?_⟩
  · simp [contribIss, processFile, rootList, hd]
  · simp [contribIss, processFile, hl, hd]

/-- Witness for C8 amended at a concrete two-element list. -/
theorem C8_missing_field_issues_witness :
    processData none "d.json" [Json.obj [("output", Json.str "y")], Json.obj []] =
      .accumulate [Json.obj [("output", Json.str "y")], Json.obj []].length
        (dataTokens none [Json.obj [("output", Json.str "y")], Json.obj []])
        (expectedItemIssues "d.json" 0
          [Json.obj [("output", Json.str "y")], Json.obj []]) ∧
    contribIss none ⟨"d.json", FileContent.jsonFile
        (some (.arr [Json.obj [("output", Json.str "y")], Json.obj []]))⟩ =
      expectedItemIssues "d.json" 0 [Json.obj [("output", Json.str "y")], Json.obj []] ∧
    contribIss none ⟨"d.json", FileContent.jsonlFile
        [JsonlLine.ok (Json.obj [("output", Json.str "y")]), JsonlLine.ok (Json.obj [])]⟩ =
      expectedItemIssues "d.json" 0 [Json.obj [("output", Json.str "y")], Json.obj []] :=
  C8_missing_field_issues none "d.json"
    [Json.obj [("output", Json.str "y")], Json.obj []]
    [JsonlLine.ok (Json.obj [("output", Json.str "y")]), JsonlLine.ok (Json.obj [])]
    rfl rfl

/-- Claim C10 (implicit): when an element of a successfully parsed list does
not support the membership test, the raised `TypeError` is caught by the
per-file handler as a single Read Error issue, yet — unlike a parse failure —
the file's full example count (the length of the list) and the tokens
accumulated for the elements before the failing one are still added to the
report totals. -/
theorem C10_partial_counts_on_item_error (tok : Option Tok) (st : AuditState)
    (name : String) (pre post : List Json) (bad : Json)
    (hall : pre.all canContain = true) (hbad : canContain bad = false) :
    pyContains "output" bad = .error (typeErrMsg bad) ∧
    processData tok name (pre ++ bad :: post) =
      .accumulate (pre ++ bad :: post).length (dataTokens tok pre)
        (expectedItemIssues name 0 pre ++ [readErrorIssue name (typeErrMsg bad)]) ∧
    (auditStep tok st ⟨name, .jsonFile (some (.arr (pre ++ bad :: post)))⟩).totalExamples =
      st.totalExamples + (pre ++ bad :: post).length ∧
    (auditStep tok st ⟨name, .jsonFile (some (.arr (pre ++ bad :: post)))⟩).totalTokens =
      st.totalTokens + dataTokens tok pre ∧
    (auditStep tok st ⟨name, .jsonFile (some (.arr (pre ++ bad :: post)))⟩).issues =
      st.issues ++ (expectedItemIssues name 0 pre ++ [readErrorIssue name (typeErrMsg bad)]) := by
  have hpd := processData_raised tok name pre bad post hall hbad
  have hpf : processFile tok ⟨name, .jsonFile (some (.arr (pre ++ bad :: post)))⟩ =
      processData tok name (pre ++ bad :: post) := rfl
  refine ⟨pyContains_of_not_canContain "output" bad hbad, hpd, ?_, ?_, ?_⟩ <;>
    rw [auditStep, hpf, hpd]

/-- Witness for C10 at a concrete list with a boolean in second position. -/
theorem C10_partial_counts_on_item_error_witness :
    pyContains "output" (Json.bool true) = .error (typeErrMsg (Json.bool true)) ∧
    processData none "e.json"
        ([Json.obj [("output", Json.str "y")]] ++ Json.bool true :: [Json.null]) =
      .accumulate ([Json.obj [("output", Json.str "y")]] ++ Json.bool true :: [Json.null]).length
        (dataTokens none [Json.obj [("output", Json.str "y")]])
        (expectedItemIssues "e.json" 0 [Json.obj [("output", Json.str "y")]] ++
          [readErrorIssue "e.json" (typeErrMsg (Json.bool true))]) ∧
    (auditStep none initState ⟨"e.json", FileContent.jsonFile (some (.arr
        ([Json.obj [("output", Json.str "y")]] ++ Json.bool true :: [Json.null])))⟩).totalExamples =
      initState.totalExamples +
        ([Json.obj [("output", Json.str "y")]] ++ Json.bool true :: [Json.null]).length ∧
    (auditStep none initState ⟨"e.json", FileContent.jsonFile (some (.arr
        ([Json.obj [("output", Json.str "y")]] ++ Json.bool true :: [Json.null])))⟩).totalTokens =
      initState.totalTokens + dataTokens none [Json.obj [("output", Json.str "y")]] ∧
    (auditStep none initState ⟨"e.json", FileContent.jsonFile (some (.arr
        ([Json.obj [("output", Json.str "y")]] ++ Json.bool true :: [Json.null])))⟩).issues =
      initState.issues ++ (expectedItemIssues "e.json" 0 [Json.obj [("output", Json.str "y")]] ++
        [readErrorIssue "e.json" (typeErrMsg (Json.bool true))]) :=
  C10_partial_counts_on_item_error none initState "e.json"
    [Json.obj [("output", Json.str "y")]] [Json.null] (Json.bool true) rfl rfl

end DataDoctor
